import Mathlib

/-!
# GPSreport/ReportApp1 — verification of the specification against the code

Shallow embedding of the two source files:
* `src/main.py`  — FastAPI service: `init_database`, `crear_reporte`,
  `obtener_reportes`, `estadisticas` over the SQLite table `reportes`.
* `src/edit_reportes.py` — administrative CLI: `connect`, `cmd_list`,
  `cmd_show`, `cmd_update`, `cmd_set_photo`, `cmd_backup`.

Modelling conventions:
* SQLite rows are kept in rowid (insertion) order in `DB.rows`;
  `AUTOINCREMENT` is `DB.nextId` (first assigned id is 1).
* `REAL` columns (`latitud`, `longitud`) carry no arithmetic in either
  program, so they are modelled as `Int`; their textual rendering is
  abstracted by `toString` (Python would print `10.0`, we print `10` —
  no claim depends on the float syntax).
* `created_at TIMESTAMP DEFAULT CURRENT_TIMESTAMP` is modelled as a `Nat`
  wall-clock value passed to each insert; theorems that depend on
  `ORDER BY created_at` carry the hypothesis that successive inserts see
  strictly increasing clock values.
* `datetime.now().isoformat()` is the parameter `nowIso`.
* File contents are `List Nat` (byte values); a possibly-missing file is
  `Option (List Nat)`.
-/

namespace ReportApp

/-- A stored row of the `reportes` table (schema from `init_database`,
`src/main.py` lines 56–67).  `foto_base64` is `TEXT NOT NULL`, so it is a
plain `String`; `descripcion` and `tipo_reporte` are nullable `TEXT`. -/
structure Row where
  id : Nat
  latitud : Int
  longitud : Int
  timestamp : String
  foto_base64 : String
  descripcion : Option String
  tipo_reporte : Option String
  created_at : Nat
deriving Repr, DecidableEq

/-- The SQLite database file contents: rows in rowid (insertion) order plus
the `AUTOINCREMENT` counter for the next id. -/
structure DB where
  rows : List Row
  nextId : Nat
deriving Repr, DecidableEq

/-- A freshly initialised database (`init_database` creates the empty table;
`AUTOINCREMENT` assigns 1 first). -/
def emptyDB : DB := { rows := [], nextId := 1 }

/-- Request body of `POST /reportes/` (`ReporteCreate`, `src/main.py` 28–34).
`tipo_reporte` keeps pydantic's `Optional[str] = "general"`: an omitted field
arrives as `some "general"`, an explicit JSON `null` as `none`. -/
structure ReporteCreate where
  latitud : Int
  longitud : Int
  timestamp : Option String
  foto_base64 : String
  descripcion : Option String
  tipo_reporte : Option String
deriving Repr, DecidableEq

/-- Response body (`ReporteResponse`, `src/main.py` 36–43), carrying the
values the handler passes along. -/
structure ReporteResponse where
  id : Nat
  latitud : Int
  longitud : Int
  timestamp : String
  foto_base64 : String
  descripcion : Option String
  tipo_reporte : Option String
deriving Repr, DecidableEq

/-- `crear_reporte` (`src/main.py` 110–149).  Python's
`if not reporte.timestamp` is true for both `None` and the empty string, in
which case the handler stamps `datetime.now().isoformat()` (`nowIso`).  The
INSERT appends a row with the next `AUTOINCREMENT` id and
`created_at = CURRENT_TIMESTAMP` (`createdNow`); the response repeats the
inserted values together with `cursor.lastrowid`. -/
def crear_reporte (db : DB) (nowIso : String) (createdNow : Nat)
    (req : ReporteCreate) : DB × ReporteResponse :=
  let ts : String :=
    match req.timestamp with
    | none => nowIso
    | some s => if s = "" then nowIso else s
  let row : Row :=
    { id := db.nextId, latitud := req.latitud, longitud := req.longitud,
      timestamp := ts, foto_base64 := req.foto_base64,
      descripcion := req.descripcion, tipo_reporte := req.tipo_reporte,
      created_at := createdNow }
  ({ rows := db.rows ++ [row], nextId := db.nextId + 1 },
   { id := row.id, latitud := req.latitud, longitud := req.longitud,
     timestamp := ts, foto_base64 := req.foto_base64,
     descripcion := req.descripcion, tipo_reporte := req.tipo_reporte })

/-- Stable insertion step of a descending sort on `key`: the new element goes
before the first strictly smaller key, after equal ones. -/
def insertDescBy (key : Row → Nat) (r : Row) : List Row → List Row
  | [] => [r]
  | x :: xs => if key x < key r then r :: x :: xs else x :: insertDescBy key r xs

/-- `ORDER BY key DESC` as a stable insertion sort.  (SQLite leaves the
relative order of equal keys unspecified; every theorem that relies on the
order assumes the keys are pairwise distinct, where all correct orders
coincide.) -/
def sortDescBy (key : Row → Nat) : List Row → List Row
  | [] => []
  | x :: xs => insertDescBy key x (sortDescBy key xs)

/-- Row-to-response conversion used by `obtener_reportes`
(`src/main.py` 167–175): every selected column is copied through. -/
def rowToResponse (r : Row) : ReporteResponse :=
  { id := r.id, latitud := r.latitud, longitud := r.longitud,
    timestamp := r.timestamp, foto_base64 := r.foto_base64,
    descripcion := r.descripcion, tipo_reporte := r.tipo_reporte }

/-- `obtener_reportes` (`src/main.py` 151–181):
`SELECT … FROM reportes ORDER BY created_at DESC`, each row materialised as
a `ReporteResponse`. -/
def obtener_reportes (db : DB) : List ReporteResponse :=
  (sortDescBy Row.created_at db.rows).map rowToResponse

/-- Result body of `GET /stats` (`src/main.py` 199–202). -/
structure Stats where
  total_reportes : Nat
  ultimo_reporte : Option String
deriving Repr, DecidableEq

/-- `estadisticas` (`src/main.py` 183–205): `SELECT COUNT(*)` and
`SELECT timestamp FROM reportes ORDER BY created_at DESC LIMIT 1`
(`fetchone` on an empty table yields `None`). -/
def estadisticas (db : DB) : Stats :=
  { total_reportes := db.rows.length,
    ultimo_reporte := (sortDescBy Row.created_at db.rows).head?.map Row.timestamp }

/-! ## Base64 (Python `base64.b64encode` / `b64decode`, RFC 4648) -/

/-- The standard base64 alphabet. -/
def b64Alphabet : List Char :=
  "ABCDEFGHIJKLMNOPQRSTUVWXYZabcdefghijklmnopqrstuvwxyz0123456789+/".toList

/-- Sextet value `n` (0–63) as its alphabet character. -/
def b64Char (n : Nat) : Char := b64Alphabet.getD n 'A'

/-- Index of a character in a character list (used to invert the alphabet). -/
def idxIn (c : Char) : List Char → Option Nat
  | [] => none
  | x :: xs => if x = c then some 0 else (idxIn c xs).map (· + 1)

/-- Sextet value of an alphabet character; `none` for characters outside the
alphabet (including the pad `=`). -/
def b64CharIndex (c : Char) : Option Nat := idxIn c b64Alphabet

/-- `base64.b64encode` on a byte list: groups of three bytes become four
sextet characters; a final group of one or two bytes is padded with `==`
or `=`. -/
def b64encodeChunks : List Nat → List Char
  | [] => []
  | [a] => [b64Char (a / 4), b64Char (a % 4 * 16), '=', '=']
  | [a, b] => [b64Char (a / 4), b64Char (a % 4 * 16 + b / 16),
               b64Char (b % 16 * 4), '=']
  | a :: b :: c :: rest =>
      b64Char (a / 4) :: b64Char (a % 4 * 16 + b / 16) ::
      b64Char (b % 16 * 4 + c / 64) :: b64Char (c % 64) ::
      b64encodeChunks rest

/-- `base64.b64decode` on well-formed input: four characters at a time, the
last group possibly padded.  (Python additionally discards characters outside
the alphabet before decoding; the values stored by this program are always
well-formed, so that case never arises here.) -/
def b64decodeChunks : List Char → Option (List Nat)
  | [] => some []
  | c1 :: c2 :: c3 :: c4 :: rest =>
    match b64CharIndex c1, b64CharIndex c2 with
    | some a, some b =>
      if c3 = '=' then
        if c4 = '=' ∧ rest = [] then some [a * 4 + b / 16] else none
      else
        match b64CharIndex c3 with
        | some c =>
          if c4 = '=' then
            if rest = [] then some [a * 4 + b / 16, b % 16 * 16 + c / 4]
            else none
          else
            match b64CharIndex c4 with
            | some d =>
              (b64decodeChunks rest).map
                (fun tail => (a * 4 + b / 16) :: (b % 16 * 16 + c / 4) ::
                             (c % 4 * 64 + d) :: tail)
            | none => none
        | none => none
    | _, _ => none
  | _ => none

/-- `base64.b64encode(b).decode('utf-8')`: the stored TEXT value. -/
def b64encode (bs : List Nat) : String := String.mk (b64encodeChunks bs)

/-- `base64.b64decode` of a stored TEXT value. -/
def b64decode (s : String) : Option (List Nat) := b64decodeChunks s.data

/-! ## Administrative tool (`src/edit_reportes.py`) -/

/-- The store file path (`DB_PATH`, `src/edit_reportes.py` line 15); the
directory prefix is abstracted away. -/
def DB_PATH : String := "reportes.db"

/-- How a single-shot CLI invocation ends. -/
inductive AdminOutcome where
  | exitWithCode (code : Nat) (msg : String)
  | raised (exc : String)
  | completed (output : List String)
deriving Repr, DecidableEq

/-- The message printed by `connect` before `sys.exit(1)` when the store file
is missing (`src/edit_reportes.py` 17–21). -/
def missingDbMsg : String := "No se encuentra " ++ DB_PATH

/-- Python `str` of a nullable TEXT value, as printed by the tool. -/
def pyShowOpt : Option String → String
  | none => "None"
  | some s => s

/-- One line of `cmd_list` output (`src/edit_reportes.py` 28–29). -/
def listLine (r : Row) : String :=
  "id=" ++ toString r.id ++ " | " ++ r.timestamp ++ " | lat=" ++
  toString r.latitud ++ " lng=" ++ toString r.longitud ++ " | tipo=" ++
  pyShowOpt r.tipo_reporte

/-- `cmd_list` (`src/edit_reportes.py` 23–30):
`SELECT id, timestamp, latitud, longitud, tipo_reporte FROM reportes
 ORDER BY id DESC LIMIT 200`, one printed line per row. -/
def cmd_list (db : DB) : List String :=
  ((sortDescBy Row.id db.rows).take 200).map listLine

/-- Column names as returned by `PRAGMA table_info(reportes)`, in schema
order (`init_database`). -/
def colNames : List String :=
  ["id", "latitud", "longitud", "timestamp", "foto_base64",
   "descripcion", "tipo_reporte", "created_at"]

/-- The values of `SELECT * FROM reportes` for one row, as Python prints
them, in the same column order as `colNames`. -/
def rowVals (r : Row) : List String :=
  [toString r.id, toString r.latitud, toString r.longitud, r.timestamp,
   r.foto_base64, pyShowOpt r.descripcion, pyShowOpt r.tipo_reporte,
   toString r.created_at]

/-- `cmd_show` (`src/edit_reportes.py` 32–50): fetch the row by id; if
absent print `No encontrado`; else walk the introspected columns and print
`col: val`, except that a non-null `foto_base64` is printed as
`<base64 len={len(val)}>` where `val` is the stored TEXT value.  The schema
declares `foto_base64 TEXT NOT NULL`, so the non-null branch is the one
taken. -/
def cmd_show (db : DB) (idv : Nat) : List String :=
  match db.rows.find? (fun row => row.id == idv) with
  | none => ["No encontrado"]
  | some row =>
    (List.zip colNames (rowVals row)).map (fun cv =>
      if cv.1 = "foto_base64" then
        cv.1 ++ ": <base64 len=" ++ toString cv.2.length ++
        "> (use set-photo to replace)"
      else cv.1 ++ ": " ++ cv.2)

/-- Parsed arguments of the `update` subcommand
(`src/edit_reportes.py` 95). -/
structure UpdateArgs where
  id : Nat
  lat : Option Int
  lng : Option Int
  tipo : Option String
  desc : Option String
deriving Repr, DecidableEq

/-- The effect of the dynamically built `UPDATE … SET` on one matching row:
each supplied argument overwrites its column, everything else is kept. -/
def applyUpdate (a : UpdateArgs) (r : Row) : Row :=
  { r with
    latitud := a.lat.getD r.latitud,
    longitud := a.lng.getD r.longitud,
    tipo_reporte := match a.tipo with | some t => some t | none => r.tipo_reporte,
    descripcion := match a.desc with | some d => some d | none => r.descripcion }

/-- `cmd_update` (`src/edit_reportes.py` 52–69): with no supplied field the
`updates` dict is empty and the tool prints `Nada para actualizar.` without
touching the store; otherwise one `UPDATE reportes SET … WHERE id=?` runs
(affecting every row whose id matches — zero rows when the id is absent) and
the tool prints `Actualizado id={id}` regardless. -/
def cmd_update (db : DB) (a : UpdateArgs) : DB × String :=
  if a.lat = none ∧ a.lng = none ∧ a.tipo = none ∧ a.desc = none then
    (db, "Nada para actualizar.")
  else
    ({ db with rows := db.rows.map (fun r => if r.id = a.id then applyUpdate a r else r) },
     "Actualizado id=" ++ toString a.id)

/-- `cmd_set_photo` (`src/edit_reportes.py` 71–83): if the image file is
missing, print `Imagen no encontrada.` and change nothing; otherwise read its
bytes, base64-encode them and overwrite `foto_base64` of every row whose id
matches. -/
def cmd_set_photo (db : DB) (idv : Nat) (fileBytes : Option (List Nat)) :
    DB × String :=
  match fileBytes with
  | none => (db, "Imagen no encontrada.")
  | some bs =>
    let b64 := b64encode bs
    ({ db with rows := db.rows.map (fun r => if r.id = idv then { r with foto_base64 := b64 } else r) },
     "Foto actualizada para id=" ++ toString idv ++ " (base64 len=" ++
     toString b64.length ++ ")")

/-! ### Whole-invocation behaviour, including the missing-store-file path

Each subcommand except `backup` begins with `connect()`, which prints
`No se encuentra {DB_PATH}` and calls `sys.exit(1)` when the store file is
absent.  `cmd_set_photo` tests the image path *before* connecting.
`cmd_backup` (`src/edit_reportes.py` 85–88) never calls `connect`; it invokes
`shutil.copy2(DB_PATH, DB_PATH + '.bak')` directly, which raises
`FileNotFoundError` when the store file is absent. -/

/-- Running `list` with store-file presence `dbExists`. -/
def runList (dbExists : Bool) (db : DB) : AdminOutcome :=
  if dbExists then .completed (cmd_list db)
  else .exitWithCode 1 missingDbMsg

/-- Running `show <id>`. -/
def runShow (dbExists : Bool) (db : DB) (idv : Nat) : AdminOutcome :=
  if dbExists then .completed (cmd_show db idv)
  else .exitWithCode 1 missingDbMsg

/-- Running `update <id> …` (the `connect` happens before the empty-updates
check). -/
def runUpdate (dbExists : Bool) (db : DB) (a : UpdateArgs) : AdminOutcome :=
  if dbExists then .completed [(cmd_update db a).2]
  else .exitWithCode 1 missingDbMsg

/-- Running `set-photo <id> <path>`: the image-file check precedes
`connect`. -/
def runSetPhoto (dbExists : Bool) (db : DB) (idv : Nat)
    (fileBytes : Option (List Nat)) : AdminOutcome :=
  match fileBytes with
  | none => .completed ["Imagen no encontrada."]
  | some bs =>
    if dbExists then .completed [(cmd_set_photo db idv (some bs)).2]
    else .exitWithCode 1 missingDbMsg

/-- Running `backup`: no `connect` call; `shutil.copy2` on a missing source
raises `FileNotFoundError`, which nothing catches. -/
def runBackup (dbExists : Bool) : AdminOutcome :=
  if dbExists then
    .completed ["Copiado " ++ DB_PATH ++ " -> " ++ DB_PATH ++ ".bak"]
  else .raised "FileNotFoundError"

/-! ## Ingestion sequences -/

/-- One ingestion request together with its environment: the wall-clock
ISO string the handler would stamp and the `CURRENT_TIMESTAMP` value the
store would record. -/
structure Ingestion where
  req : ReporteCreate
  nowIso : String
  createdNow : Nat
deriving Repr, DecidableEq

/-- Run a sequence of `crear_reporte` calls. -/
def runIngestions (db : DB) : List Ingestion → DB
  | [] => db
  | i :: rest => runIngestions (crear_reporte db i.nowIso i.createdNow i.req).1 rest

/-- The ids returned to the clients, in request order. -/
def returnedIds (db : DB) : List Ingestion → List Nat
  | [] => []
  | i :: rest =>
    (crear_reporte db i.nowIso i.createdNow i.req).2.id ::
    returnedIds (crear_reporte db i.nowIso i.createdNow i.req).1 rest

/-- The store's `CURRENT_TIMESTAMP` values seen by successive inserts are
strictly increasing, all above `t`. -/
def clocksAbove : Nat → List Ingestion → Prop
  | _, [] => True
  | t, i :: rest => t < i.createdNow ∧ clocksAbove i.createdNow rest

end ReportApp

namespace ReportApp

/-! ## Supporting lemmas -/

/-- Small convenience: the shape of the state after one insert. -/
lemma crear_reporte_rows_shape (db : DB) (nowIso : String) (cn : Nat)
    (req : ReporteCreate) :
    ∃ row : Row, (crear_reporte db nowIso cn req).1.rows = db.rows ++ [row]
      ∧ row.created_at = cn ∧ row.id = db.nextId
      ∧ row.timestamp = (crear_reporte db nowIso cn req).2.timestamp :=
  ⟨_, rfl, rfl, rfl, rfl⟩

lemma crear_reporte_nextId (db : DB) (nowIso : String) (cn : Nat)
    (req : ReporteCreate) :
    (crear_reporte db nowIso cn req).1.nextId = db.nextId + 1 := rfl

lemma crear_reporte_resp_id (db : DB) (nowIso : String) (cn : Nat)
    (req : ReporteCreate) :
    (crear_reporte db nowIso cn req).2.id = db.nextId := rfl

lemma length_insertDescBy (key : Row → Nat) (r : Row) (l : List Row) :
    (insertDescBy key r l).length = l.length + 1 := by
  induction l with
  | nil => rfl
  | cons x xs ih =>
    simp only [insertDescBy]
    split
    · simp
    · simp [ih]

lemma length_sortDescBy (key : Row → Nat) (l : List Row) :
    (sortDescBy key l).length = l.length := by
  induction l with
  | nil => rfl
  | cons x xs ih => simp [sortDescBy, length_insertDescBy, ih]

lemma insertDescBy_min (key : Row → Nat) (r : Row) (l : List Row)
    (h : ∀ x ∈ l, ¬ key x < key r) : insertDescBy key r l = l ++ [r] := by
  induction l with
  | nil => rfl
  | cons x xs ih =>
    rw [insertDescBy, if_neg (h x (by simp))]
    rw [ih (fun y hy => h y (by simp [hy]))]
    rfl

/-- On rows whose keys strictly increase in list order, any correct
`ORDER BY key DESC` is the reverse of the list. -/
lemma sortDescBy_of_pairwise (key : Row → Nat) (l : List Row)
    (h : l.Pairwise (fun a b => key a < key b)) :
    sortDescBy key l = l.reverse := by
  induction l with
  | nil => rfl
  | cons x xs ih =>
    have hx : ∀ y ∈ xs, key x < key y := (List.pairwise_cons.mp h).1
    rw [sortDescBy, ih (List.pairwise_cons.mp h).2, List.reverse_cons]
    exact insertDescBy_min key x xs.reverse (fun y hy => by
      have := hx y (List.mem_reverse.mp hy); omega)

lemma runIngestions_rows_length (ins : List Ingestion) :
    ∀ db : DB, (runIngestions db ins).rows.length = db.rows.length + ins.length := by
  induction ins with
  | nil => intro db; simp [runIngestions]
  | cons i rest ih =>
    intro db
    rw [runIngestions, ih]
    obtain ⟨row, hrow, -, -, -⟩ := crear_reporte_rows_shape db i.nowIso i.createdNow i.req
    rw [hrow]
    simp
    omega

/-- Invariant: starting from rows whose `created_at` values strictly
increase and stay at or below `t`, a run whose clocks strictly increase
above `t` keeps the `created_at` values strictly increasing in row order. -/
lemma runIngestions_pairwise (ins : List Ingestion) :
    ∀ (db : DB) (t : Nat),
      db.rows.Pairwise (fun a b => a.created_at < b.created_at) →
      (∀ r ∈ db.rows, r.created_at ≤ t) →
      clocksAbove t ins →
      (runIngestions db ins).rows.Pairwise (fun a b => a.created_at < b.created_at) := by
  induction ins with
  | nil => intro db t hp _ _; exact hp
  | cons i rest ih =>
    intro db t hp hb hc
    obtain ⟨h1, h2⟩ := hc
    obtain ⟨row, hrow, hca, -, -⟩ := crear_reporte_rows_shape db i.nowIso i.createdNow i.req
    rw [runIngestions]
    apply ih _ i.createdNow _ _ h2
    · rw [hrow]
      refine List.pairwise_append.mpr ⟨hp, List.pairwise_singleton _ _, ?_⟩
      intro a ha b hbm
      have hbt := hb a ha
      have : b = row := by simpa using hbm
      subst this
      omega
    · intro r hr
      rw [hrow] at hr
      rcases List.mem_append.mp hr with h | h
      · exact le_of_lt (lt_of_le_of_lt (hb r h) h1)
      · have : r = row := by simpa using h
        subst this
        omega

/-! ## Base64 lemmas -/

lemma idx_b64Char : ∀ n < 64, b64CharIndex (b64Char n) = some n := by decide

lemma b64Char_ne_pad : ∀ n < 64, b64Char n ≠ '=' := by decide

/-- Round trip at the chunk level: decoding an encoding of a byte list
recovers the bytes. -/
lemma b64decode_encode_chunks (bs : List Nat) (h : ∀ x ∈ bs, x < 256) :
    b64decodeChunks (b64encodeChunks bs) = some bs := by
  induction bs using b64encodeChunks.induct with
  | case1 => rfl
  | case2 a =>
    have ha : a < 256 := h a (by simp)
    have e1 := idx_b64Char (a / 4) (by omega)
    have e2 := idx_b64Char (a % 4 * 16) (by omega)
    simp only [b64encodeChunks, b64decodeChunks, e1, e2, if_pos rfl,
      and_self, if_true]
    simp only [Option.some.injEq, List.cons.injEq, and_true]
    omega
  | case3 a b =>
    have ha : a < 256 := h a (by simp)
    have hb : b < 256 := h b (by simp)
    have e1 := idx_b64Char (a / 4) (by omega)
    have e2 := idx_b64Char (a % 4 * 16 + b / 16) (by omega)
    have e3 := idx_b64Char (b % 16 * 4) (by omega)
    have n3 := b64Char_ne_pad (b % 16 * 4) (by omega)
    simp only [b64encodeChunks, b64decodeChunks, e1, e2, e3, if_neg n3,
      if_pos rfl, if_true]
    simp only [Option.some.injEq, List.cons.injEq, and_true]
    constructor
    · omega
    · omega
  | case4 a b c rest ih =>
    have ha : a < 256 := h a (by simp)
    have hb : b < 256 := h b (by simp)
    have hc : c < 256 := h c (by simp)
    have ihr := ih (fun x hx => h x (by simp [hx]))
    have e1 := idx_b64Char (a / 4) (by omega)
    have e2 := idx_b64Char (a % 4 * 16 + b / 16) (by omega)
    have e3 := idx_b64Char (b % 16 * 4 + c / 64) (by omega)
    have e4 := idx_b64Char (c % 64) (by omega)
    have n3 := b64Char_ne_pad (b % 16 * 4 + c / 64) (by omega)
    have n4 := b64Char_ne_pad (c % 64) (by omega)
    simp only [b64encodeChunks, b64decodeChunks, e1, e2, e3, e4, if_neg n3,
      if_neg n4, ihr, Option.map_some', Option.some.injEq, List.cons.injEq,
      and_true]
    refine ⟨by omega, by omega, by omega⟩

/-- Round trip on the stored TEXT value. -/
lemma b64decode_b64encode (bs : List Nat) (h : ∀ x ∈ bs, x < 256) :
    b64decode (b64encode bs) = some bs :=
  b64decode_encode_chunks bs h

end ReportApp

namespace ReportApp

/-! ## Claim theorems -/

lemma map_rows_id_of_eq {l : List Row} {f : Row → Row}
    (h : ∀ r ∈ l, f r = r) : l.map f = l := by
  have h1 : l.map f = l.map id := List.map_congr_left (fun r hr => h r hr)
  rw [h1, List.map_id]

/-- C1 counterexample: for the stored value `"Zm9v"` (the encoding of the
three bytes of `foo`), `show` prints `len=4` — the length of the stored
base64 text — while the decoded byte length is 3. -/
theorem show_photo_encoded_len_cex :
    (cmd_show ⟨[⟨1, 10, -74, "2024-01-01T00:00:00", "Zm9v", none,
        some "alerta", 5⟩], 2⟩ 1)[4]?
      = some "foto_base64: <base64 len=4> (use set-photo to replace)"
    ∧ (b64decode "Zm9v").map List.length = some 3
    ∧ "foto_base64: <base64 len=4> (use set-photo to replace)"
      ≠ "foto_base64: <base64 len=3> (use set-photo to replace)" := by
  refine ⟨rfl, rfl, by decide⟩

/-- C1 (amended): `show <id>` renders a found report's photo field as the
length of the stored base64 text (the encoded length, not the decoded byte
length), and never prints the raw payload — the printed line depends on the
stored value only through its length. -/
theorem show_photo_len_of_stored (db : DB) (idv : Nat) (r : Row)
    (hfind : db.rows.find? (fun row => row.id == idv) = some r) :
    (cmd_show db idv)[4]?
      = some ("foto_base64: <base64 len=" ++ toString r.foto_base64.length ++
              "> (use set-photo to replace)") := by
  unfold cmd_show
  rw [hfind]
  rfl

/-- C1 witness: the amended theorem at a concrete store. -/
theorem show_photo_len_of_stored_witness :
    (([⟨1, 10, -74, "2024-01-01T00:00:00", "Zm9v", none, some "alerta", 5⟩] :
        List Row).find? (fun row => row.id == 1)
      = some ⟨1, 10, -74, "2024-01-01T00:00:00", "Zm9v", none, some "alerta", 5⟩)
    ∧ (cmd_show ⟨[⟨1, 10, -74, "2024-01-01T00:00:00", "Zm9v", none,
        some "alerta", 5⟩], 2⟩ 1)[4]?
      = some ("foto_base64: <base64 len=" ++
          toString ("Zm9v" : String).length ++ "> (use set-photo to replace)") :=
  ⟨rfl, show_photo_len_of_stored
    ⟨[⟨1, 10, -74, "2024-01-01T00:00:00", "Zm9v", none, some "alerta", 5⟩], 2⟩
    1 ⟨1, 10, -74, "2024-01-01T00:00:00", "Zm9v", none, some "alerta", 5⟩ rfl⟩

/-- C2 counterexample: `backup` with a missing store file raises
`FileNotFoundError` out of `shutil.copy2` instead of printing the message
and exiting with code 1. -/
theorem backup_missing_store_cex :
    runBackup false = AdminOutcome.raised "FileNotFoundError"
    ∧ AdminOutcome.raised "FileNotFoundError"
      ≠ AdminOutcome.exitWithCode 1 missingDbMsg :=
  ⟨rfl, by decide⟩

/-- C2 (amended): with the store file missing, `list`, `show`, `update`, and
`set-photo` with an existing image file print the message and exit with
code 1; `set-photo` with a missing image file prints `Imagen no encontrada.`
and completes normally without consulting the store; `backup` performs no
check and propagates `FileNotFoundError` from the copy. -/
theorem admin_missing_store_behaviour (db : DB) (idv : Nat) (a : UpdateArgs)
    (bs : List Nat) :
    runList false db = AdminOutcome.exitWithCode 1 missingDbMsg
    ∧ runShow false db idv = AdminOutcome.exitWithCode 1 missingDbMsg
    ∧ runUpdate false db a = AdminOutcome.exitWithCode 1 missingDbMsg
    ∧ runSetPhoto false db idv (some bs) = AdminOutcome.exitWithCode 1 missingDbMsg
    ∧ runSetPhoto false db idv none = AdminOutcome.completed ["Imagen no encontrada."]
    ∧ runBackup false = AdminOutcome.raised "FileNotFoundError" :=
  ⟨rfl, rfl, rfl, rfl, rfl, rfl⟩

/-- C3 (confirmed): under strictly increasing insert clocks,
`stats.ultimo_reporte` is the client-facing `timestamp` field of the most
recently inserted row (the last row in insertion order) — `none` when the
store is empty, since `getLast?` of no rows is `none`. -/
theorem stats_ultimo_is_last_inserted_timestamp (ins : List Ingestion)
    (h : clocksAbove 0 ins) :
    (estadisticas (runIngestions emptyDB ins)).ultimo_reporte
      = ((runIngestions emptyDB ins).rows.getLast?).map Row.timestamp := by
  have hp := runIngestions_pairwise ins emptyDB 0 (by simp [emptyDB])
    (by intro r hr; simp [emptyDB] at hr) h
  show ((sortDescBy Row.created_at (runIngestions emptyDB ins).rows).head?).map
      Row.timestamp = _
  rw [sortDescBy_of_pairwise _ _ hp, List.head?_reverse]

/-- C3 witness: two concrete ingestions with clocks 1 < 2. -/
theorem stats_ultimo_is_last_inserted_timestamp_witness :
    clocksAbove 0
      [⟨⟨10, -74, some "T1", "Zm9v", none, some "general"⟩, "N1", 1⟩,
       ⟨⟨11, -75, some "T2", "YQ==", none, some "general"⟩, "N2", 2⟩]
    ∧ (estadisticas (runIngestions emptyDB
        [⟨⟨10, -74, some "T1", "Zm9v", none, some "general"⟩, "N1", 1⟩,
         ⟨⟨11, -75, some "T2", "YQ==", none, some "general"⟩, "N2", 2⟩])).ultimo_reporte
      = ((runIngestions emptyDB
        [⟨⟨10, -74, some "T1", "Zm9v", none, some "general"⟩, "N1", 1⟩,
         ⟨⟨11, -75, some "T2", "YQ==", none, some "general"⟩, "N2", 2⟩]).rows.getLast?).map
          Row.timestamp :=
  ⟨⟨by decide, by decide, trivial⟩,
   stats_ultimo_is_last_inserted_timestamp
     [⟨⟨10, -74, some "T1", "Zm9v", none, some "general"⟩, "N1", 1⟩,
      ⟨⟨11, -75, some "T2", "YQ==", none, some "general"⟩, "N2", 2⟩]
     ⟨by decide, by decide, trivial⟩⟩

/-- C4 (confirmed): updating a nonexistent id with at least one supplied
field matches zero rows, leaves the store (rows and id counter) unchanged,
and still reports `Actualizado id={id}`. -/
theorem update_nonexistent_id_noop (db : DB) (a : UpdateArgs)
    (hno : ∀ r ∈ db.rows, r.id ≠ a.id)
    (hsome : ¬(a.lat = none ∧ a.lng = none ∧ a.tipo = none ∧ a.desc = none)) :
    (cmd_update db a).1 = db
    ∧ (cmd_update db a).2 = "Actualizado id=" ++ toString a.id := by
  unfold cmd_update
  rw [if_neg hsome]
  refine ⟨?_, rfl⟩
  show ({ db with rows := db.rows.map (fun r => if r.id = a.id then applyUpdate a r else r) } : DB) = db
  rw [map_rows_id_of_eq (fun r hr => if_neg (hno r hr))]

/-- C4 witness: an update of id 2 with one field against a store holding
only id 1. -/
theorem update_nonexistent_id_noop_witness :
    (∀ r ∈ ([⟨1, 10, -74, "T1", "Zm9v", none, some "alerta", 1⟩] : List Row),
      r.id ≠ 2)
    ∧ ¬((some (5 : Int)) = none ∧ (none : Option Int) = none
        ∧ (none : Option String) = none ∧ (none : Option String) = none)
    ∧ (cmd_update ⟨[⟨1, 10, -74, "T1", "Zm9v", none, some "alerta", 1⟩], 2⟩
        ⟨2, some 5, none, none, none⟩).1
      = ⟨[⟨1, 10, -74, "T1", "Zm9v", none, some "alerta", 1⟩], 2⟩
    ∧ (cmd_update ⟨[⟨1, 10, -74, "T1", "Zm9v", none, some "alerta", 1⟩], 2⟩
        ⟨2, some 5, none, none, none⟩).2 = "Actualizado id=" ++ toString 2 :=
  ⟨by decide, by decide,
   (update_nonexistent_id_noop
     ⟨[⟨1, 10, -74, "T1", "Zm9v", none, some "alerta", 1⟩], 2⟩
     ⟨2, some 5, none, none, none⟩ (by decide) (by decide)).1,
   (update_nonexistent_id_noop
     ⟨[⟨1, 10, -74, "T1", "Zm9v", none, some "alerta", 1⟩], 2⟩
     ⟨2, some 5, none, none, none⟩ (by decide) (by decide)).2⟩

end ReportApp

namespace ReportApp

/-- C5 (confirmed): under strictly increasing insert clocks, after `N`
ingestions the listing has exactly `N` records and is the reverse of
insertion order — newest first, so a later-inserted report never appears
after an earlier-inserted one. -/
theorem listing_returns_all_newest_first (ins : List Ingestion)
    (h : clocksAbove 0 ins) :
    (obtener_reportes (runIngestions emptyDB ins)).length = ins.length
    ∧ obtener_reportes (runIngestions emptyDB ins)
        = ((runIngestions emptyDB ins).rows.reverse).map rowToResponse := by
  have hp := runIngestions_pairwise ins emptyDB 0 (by simp [emptyDB])
    (by intro r hr; simp [emptyDB] at hr) h
  constructor
  · show ((sortDescBy Row.created_at (runIngestions emptyDB ins).rows).map
      rowToResponse).length = ins.length
    rw [List.length_map, length_sortDescBy, runIngestions_rows_length]
    simp [emptyDB]
  · show (sortDescBy Row.created_at (runIngestions emptyDB ins).rows).map
      rowToResponse = _
    rw [sortDescBy_of_pairwise _ _ hp]

/-- C5 witness: two concrete ingestions with clocks 1 < 2. -/
theorem listing_returns_all_newest_first_witness :
    clocksAbove 0
      [⟨⟨10, -74, some "T1", "Zm9v", none, some "general"⟩, "N1", 1⟩,
       ⟨⟨11, -75, some "T2", "YQ==", none, some "general"⟩, "N2", 2⟩]
    ∧ (obtener_reportes (runIngestions emptyDB
        [⟨⟨10, -74, some "T1", "Zm9v", none, some "general"⟩, "N1", 1⟩,
         ⟨⟨11, -75, some "T2", "YQ==", none, some "general"⟩, "N2", 2⟩])).length = 2
    ∧ obtener_reportes (runIngestions emptyDB
        [⟨⟨10, -74, some "T1", "Zm9v", none, some "general"⟩, "N1", 1⟩,
         ⟨⟨11, -75, some "T2", "YQ==", none, some "general"⟩, "N2", 2⟩])
      = ((runIngestions emptyDB
        [⟨⟨10, -74, some "T1", "Zm9v", none, some "general"⟩, "N1", 1⟩,
         ⟨⟨11, -75, some "T2", "YQ==", none, some "general"⟩, "N2", 2⟩]).rows.reverse).map
          rowToResponse :=
  ⟨⟨by decide, by decide, trivial⟩,
   (listing_returns_all_newest_first
     [⟨⟨10, -74, some "T1", "Zm9v", none, some "general"⟩, "N1", 1⟩,
      ⟨⟨11, -75, some "T2", "YQ==", none, some "general"⟩, "N2", 2⟩]
     ⟨by decide, by decide, trivial⟩).1,
   (listing_returns_all_newest_first
     [⟨⟨10, -74, some "T1", "Zm9v", none, some "general"⟩, "N1", 1⟩,
      ⟨⟨11, -75, some "T2", "YQ==", none, some "general"⟩, "N2", 2⟩]
     ⟨by decide, by decide, trivial⟩).2⟩

/-- C6 (confirmed): `set-photo` on an existing id stores the base64 encoding
of the file bytes, and decoding that stored value gives back exactly the
file bytes. -/
theorem set_photo_roundtrip (db : DB) (idv : Nat) (bytes : List Nat)
    (hb : ∀ x ∈ bytes, x < 256) (r : Row) (hr : r ∈ db.rows)
    (hid : r.id = idv) :
    { r with foto_base64 := b64encode bytes }
      ∈ (cmd_set_photo db idv (some bytes)).1.rows
    ∧ b64decode (b64encode bytes) = some bytes := by
  refine ⟨?_, b64decode_b64encode bytes hb⟩
  show _ ∈ db.rows.map (fun row => if row.id = idv then { row with foto_base64 := b64encode bytes } else row)
  have hmem : (if r.id = idv then { r with foto_base64 := b64encode bytes } else r) ∈ db.rows.map (fun row => if row.id = idv then { row with foto_base64 := b64encode bytes } else row) :=
    List.mem_map_of_mem _ hr
  rw [if_pos hid] at hmem
  exact hmem

/-- C6 witness: storing the three bytes of `foo` on id 1. -/
theorem set_photo_roundtrip_witness :
    (∀ x ∈ ([102, 111, 111] : List Nat), x < 256)
    ∧ { (⟨1, 10, -74, "T1", "", none, some "alerta", 1⟩ : Row) with
          foto_base64 := b64encode [102, 111, 111] }
        ∈ (cmd_set_photo ⟨[⟨1, 10, -74, "T1", "", none, some "alerta", 1⟩], 2⟩ 1
            (some [102, 111, 111])).1.rows
    ∧ b64decode (b64encode [102, 111, 111]) = some [102, 111, 111] :=
  ⟨by decide,
   (set_photo_roundtrip ⟨[⟨1, 10, -74, "T1", "", none, some "alerta", 1⟩], 2⟩ 1
     [102, 111, 111] (by decide) ⟨1, 10, -74, "T1", "", none, some "alerta", 1⟩
     (by decide) rfl).1,
   (set_photo_roundtrip ⟨[⟨1, 10, -74, "T1", "", none, some "alerta", 1⟩], 2⟩ 1
     [102, 111, 111] (by decide) ⟨1, 10, -74, "T1", "", none, some "alerta", 1⟩
     (by decide) rfl).2⟩

lemma returnedIds_eq_range (ins : List Ingestion) :
    ∀ db : DB, returnedIds db ins = List.range' db.nextId ins.length := by
  induction ins with
  | nil => intro db; rfl
  | cons i rest ih =>
    intro db
    rw [returnedIds, ih, crear_reporte_resp_id, crear_reporte_nextId,
      List.length_cons, List.range'_succ]

/-- C7 (confirmed): over any ingestion sequence the returned ids are the
consecutive integers starting at the autoincrement counter, hence strictly
increasing in insertion order with no repetition. -/
theorem ingestion_ids_strictly_increasing (ins : List Ingestion) :
    returnedIds emptyDB ins = List.range' 1 ins.length
    ∧ List.Pairwise (fun x y => x < y) (returnedIds emptyDB ins)
    ∧ (returnedIds emptyDB ins).Nodup := by
  rw [returnedIds_eq_range]
  refine ⟨rfl, List.pairwise_lt_range' _ _, ?_⟩
  exact (List.pairwise_lt_range' _ _).imp (fun h => Nat.ne_of_lt h)

/-- C8 (confirmed): in every store state, `stats.total_reportes` equals the
number of records the listing returns (sorting preserves length). -/
theorem stats_total_eq_listing_length (db : DB) :
    (estadisticas db).total_reportes = (obtener_reportes db).length := by
  show db.rows.length
      = ((sortDescBy Row.created_at db.rows).map rowToResponse).length
  rw [List.length_map, length_sortDescBy]

/-- C9 (confirmed): an `update` invocation with no supplied field changes
nothing; on any row the applied assignment keeps `id`, `timestamp`,
`foto_base64` and `created_at`, keeps every unsupplied field, sets exactly
the supplied ones, and rows whose id does not match keep their position and
value unchanged. -/
theorem update_frame (db : DB) (a : UpdateArgs) :
    ((a.lat = none ∧ a.lng = none ∧ a.tipo = none ∧ a.desc = none) →
      (cmd_update db a).1 = db)
    ∧ (∀ r : Row,
        (applyUpdate a r).id = r.id ∧
        (applyUpdate a r).timestamp = r.timestamp ∧
        (applyUpdate a r).foto_base64 = r.foto_base64 ∧
        (applyUpdate a r).created_at = r.created_at ∧
        (a.lat = none → (applyUpdate a r).latitud = r.latitud) ∧
        (a.lng = none → (applyUpdate a r).longitud = r.longitud) ∧
        (a.tipo = none → (applyUpdate a r).tipo_reporte = r.tipo_reporte) ∧
        (a.desc = none → (applyUpdate a r).descripcion = r.descripcion) ∧
        (∀ v, a.lat = some v → (applyUpdate a r).latitud = v) ∧
        (∀ v, a.lng = some v → (applyUpdate a r).longitud = v) ∧
        (∀ v, a.tipo = some v → (applyUpdate a r).tipo_reporte = some v) ∧
        (∀ v, a.desc = some v → (applyUpdate a r).descripcion = some v))
    ∧ (∀ (i : Nat) (r : Row), db.rows[i]? = some r → r.id ≠ a.id →
        (cmd_update db a).1.rows[i]? = some r) := by
  refine ⟨?_, ?_, ?_⟩
  · intro hnone
    unfold cmd_update
    rw [if_pos hnone]
  · intro r
    refine ⟨rfl, rfl, rfl, rfl, ?_, ?_, ?_, ?_, ?_, ?_, ?_, ?_⟩
    · intro h; show (a.lat.getD r.latitud) = r.latitud; rw [h]; rfl
    · intro h; show (a.lng.getD r.longitud) = r.longitud; rw [h]; rfl
    · intro h
      show (match a.tipo with | some t => some t | none => r.tipo_reporte)
        = r.tipo_reporte
      rw [h]
    · intro h
      show (match a.desc with | some d => some d | none => r.descripcion)
        = r.descripcion
      rw [h]
    · intro v h; show (a.lat.getD r.latitud) = v; rw [h]; rfl
    · intro v h; show (a.lng.getD r.longitud) = v; rw [h]; rfl
    · intro v h
      show (match a.tipo with | some t => some t | none => r.tipo_reporte)
        = some v
      rw [h]
    · intro v h
      show (match a.desc with | some d => some d | none => r.descripcion)
        = some v
      rw [h]
  · intro i r hget hne
    unfold cmd_update
    split
    · exact hget
    · show (db.rows.map (fun x => if x.id = a.id then applyUpdate a x else x))[i]? = some r
      rw [List.getElem?_map, hget]
      show some (if r.id = a.id then applyUpdate a r else r) = some r
      rw [if_neg hne]

/-- C9 witness: the spec scenario — one row, `update --desc "revisado"`
leaves `latitud`, `longitud` and `tipo_reporte` untouched and sets only
`descripcion`; an update with no fields is a no-op. -/
theorem update_frame_witness :
    (cmd_update ⟨[⟨1, 10, -74, "T1", "Zm9v", none, some "alerta", 1⟩], 2⟩
      ⟨1, none, none, none, none⟩).1
      = ⟨[⟨1, 10, -74, "T1", "Zm9v", none, some "alerta", 1⟩], 2⟩
    ∧ (applyUpdate ⟨1, none, none, none, some "revisado"⟩
        ⟨1, 10, -74, "T1", "Zm9v", none, some "alerta", 1⟩).latitud = 10
    ∧ (applyUpdate ⟨1, none, none, none, some "revisado"⟩
        ⟨1, 10, -74, "T1", "Zm9v", none, some "alerta", 1⟩).longitud = -74
    ∧ (applyUpdate ⟨1, none, none, none, some "revisado"⟩
        ⟨1, 10, -74, "T1", "Zm9v", none, some "alerta", 1⟩).tipo_reporte
        = some "alerta"
    ∧ (applyUpdate ⟨1, none, none, none, some "revisado"⟩
        ⟨1, 10, -74, "T1", "Zm9v", none, some "alerta", 1⟩).descripcion
        = some "revisado"
    ∧ (cmd_update ⟨[⟨1, 10, -74, "T1", "Zm9v", none, some "alerta", 1⟩,
          ⟨2, 3, 4, "T2", "YQ==", none, none, 2⟩], 3⟩
        ⟨1, none, none, none, some "revisado"⟩).1.rows[1]?
      = some ⟨2, 3, 4, "T2", "YQ==", none, none, 2⟩ := by
  refine ⟨(update_frame ⟨[⟨1, 10, -74, "T1", "Zm9v", none, some "alerta", 1⟩], 2⟩
      ⟨1, none, none, none, none⟩).1 ⟨rfl, rfl, rfl, rfl⟩, ?_, ?_, ?_, ?_, ?_⟩
  · exact ((update_frame ⟨[], 1⟩ ⟨1, none, none, none, some "revisado"⟩).2.1
      ⟨1, 10, -74, "T1", "Zm9v", none, some "alerta", 1⟩).2.2.2.2.1 rfl
  · exact ((update_frame ⟨[], 1⟩ ⟨1, none, none, none, some "revisado"⟩).2.1
      ⟨1, 10, -74, "T1", "Zm9v", none, some "alerta", 1⟩).2.2.2.2.2.1 rfl
  · exact ((update_frame ⟨[], 1⟩ ⟨1, none, none, none, some "revisado"⟩).2.1
      ⟨1, 10, -74, "T1", "Zm9v", none, some "alerta", 1⟩).2.2.2.2.2.2.1 rfl
  · exact ((update_frame ⟨[], 1⟩ ⟨1, none, none, none, some "revisado"⟩).2.1
      ⟨1, 10, -74, "T1", "Zm9v", none, some "alerta", 1⟩).2.2.2.2.2.2.2.2.2.2.2
      "revisado" rfl
  · exact (update_frame ⟨[⟨1, 10, -74, "T1", "Zm9v", none, some "alerta", 1⟩,
      ⟨2, 3, 4, "T2", "YQ==", none, none, 2⟩], 3⟩
      ⟨1, none, none, none, some "revisado"⟩).2.2 1
      ⟨2, 3, 4, "T2", "YQ==", none, none, 2⟩ rfl (by decide)

/-- C10 (confirmed): an ingestion whose `timestamp` is the empty string is
handled exactly like an omitted timestamp — the generated current-time value
is stored and returned, never the empty string — while any non-empty
supplied timestamp is preserved verbatim. -/
theorem empty_timestamp_treated_as_omitted (db : DB) (nowIso : String)
    (cn : Nat) (req : ReporteCreate) (hn : nowIso ≠ "") :
    crear_reporte db nowIso cn { req with timestamp := some "" }
      = crear_reporte db nowIso cn { req with timestamp := none }
    ∧ (crear_reporte db nowIso cn { req with timestamp := some "" }).2.timestamp
      = nowIso
    ∧ (crear_reporte db nowIso cn { req with timestamp := some "" }).2.timestamp
      ≠ ""
    ∧ ((crear_reporte db nowIso cn
        { req with timestamp := some "" }).1.rows.getLast?).map Row.timestamp
      = some nowIso
    ∧ ∀ s : String, s ≠ "" →
        (crear_reporte db nowIso cn { req with timestamp := some s }).2.timestamp
          = s := by
  refine ⟨rfl, rfl, hn, ?_, ?_⟩
  · obtain ⟨row, hrow, -, -, hts⟩ :=
      crear_reporte_rows_shape db nowIso cn { req with timestamp := some "" }
    rw [hrow, List.getLast?_concat, Option.map_some', hts]
    rfl
  · intro s hs
    show (if s = "" then nowIso else s) = s
    rw [if_neg hs]

/-- C10 witness: the behaviour at a concrete request with `timestamp = ""`. -/
theorem empty_timestamp_treated_as_omitted_witness :
    ("2024-01-01T00:00:00" : String) ≠ ""
    ∧ crear_reporte ⟨[], 1⟩ "2024-01-01T00:00:00" 7
        ⟨10, -74, some "", "Zm9v", none, some "general"⟩
      = crear_reporte ⟨[], 1⟩ "2024-01-01T00:00:00" 7
        ⟨10, -74, none, "Zm9v", none, some "general"⟩
    ∧ (crear_reporte ⟨[], 1⟩ "2024-01-01T00:00:00" 7
        ⟨10, -74, some "", "Zm9v", none, some "general"⟩).2.timestamp
      = "2024-01-01T00:00:00" :=
  ⟨by decide,
   (empty_timestamp_treated_as_omitted ⟨[], 1⟩ "2024-01-01T00:00:00" 7
     ⟨10, -74, none, "Zm9v", none, some "general"⟩ (by decide)).1,
   (empty_timestamp_treated_as_omitted ⟨[], 1⟩ "2024-01-01T00:00:00" 7
     ⟨10, -74, none, "Zm9v", none, some "general"⟩ (by decide)).2.1⟩

end ReportApp
